import Mathlib

/-!
Shallow embedding of the simulation core of `src/volleyball_game.py`
(a two-player arcade volleyball game): player kinematics, ball physics
and collision resolution, scoring and the match-over check of the main
loop.  Python floats are modelled as real numbers; the random draws of
`random.choice` / `random.uniform` are passed in explicitly as a tape
of real parameters.  `math.cos (math.atan2 dy dx)` and
`math.sin (math.atan2 dy dx)` are embedded as the components of the
unit vector along `(dx, dy)` (with the convention `atan2 0 0 = 0`,
giving `(1, 0)`), which is exactly their mathematical value.
-/

open Classical

noncomputable section

namespace Volley

/-- SCREEN_WIDTH = 800 -/
def SCREEN_WIDTH : ℝ := 800

/-- SCREEN_HEIGHT = 600 -/
def SCREEN_HEIGHT : ℝ := 600

/-- PLAYER_BOTTOM_RADIUS = 30 -/
def PLAYER_BOTTOM_RADIUS : ℝ := 30

/-- BALL_RADIUS = 25 -/
def BALL_RADIUS : ℝ := 25

/-- NET_WIDTH = 10 -/
def NET_WIDTH : ℝ := 10

/-- NET_HEIGHT = 300 -/
def NET_HEIGHT : ℝ := 300

/-- GRAVITY = 0.5 -/
def GRAVITY : ℝ := 0.5

/-- JUMP_FORCE = -15 -/
def JUMP_FORCE : ℝ := -15

/-- PLAYER_SPEED = 6.25 -/
def PLAYER_SPEED : ℝ := 6.25

/-- BALL_SPEED = 5.25 -/
def BALL_SPEED : ℝ := 5.25

/-- WINNING_SCORE = 21 (scores are Python ints, kept as `ℕ`). -/
def WINNING_SCORE : ℕ := 21

/-- State of class `Player`.  The fields `bottom_radius`, `top_radius`,
`height`, `width` and `color` of the Python class are constants fixed at
construction (`top_radius`/`height`/`width`/`color` are used by rendering
only) and are therefore not carried in the state. -/
structure Player where
  x : ℝ
  y : ℝ
  vel_y : ℝ
  is_jumping : Bool
  is_left_player : Bool
  score : ℕ

/-- Field `self.bottom_radius`, always set to `PLAYER_BOTTOM_RADIUS` in `__init__`. -/
def Player.bottom_radius (_ : Player) : ℝ := PLAYER_BOTTOM_RADIUS

/-- Method `Player.move(direction)`.  In the Python source `SCREEN_WIDTH // 2`
and `NET_WIDTH // 2` are integer divisions of even integers, so they
coincide with real division here. -/
def Player.move (p : Player) (direction : ℝ) : Player :=
  let x := p.x + direction * PLAYER_SPEED
  if p.is_left_player then
    if x - p.bottom_radius < 0 then
      { p with x := p.bottom_radius }
    else if x + p.bottom_radius > SCREEN_WIDTH / 2 - NET_WIDTH / 2 then
      { p with x := SCREEN_WIDTH / 2 - NET_WIDTH / 2 - p.bottom_radius }
    else
      { p with x := x }
  else
    if x - p.bottom_radius < SCREEN_WIDTH / 2 + NET_WIDTH / 2 then
      { p with x := SCREEN_WIDTH / 2 + NET_WIDTH / 2 + p.bottom_radius }
    else if x + p.bottom_radius > SCREEN_WIDTH then
      { p with x := SCREEN_WIDTH - p.bottom_radius }
    else
      { p with x := x }

/-- Method `Player.jump()`. -/
def Player.jump (p : Player) : Player :=
  if ¬ p.is_jumping then
    { p with vel_y := JUMP_FORCE, is_jumping := true }
  else p

/-- Method `Player.update()`. -/
def Player.update (p : Player) : Player :=
  let vel_y := p.vel_y + GRAVITY
  let y := p.y + vel_y
  if y + p.bottom_radius > SCREEN_HEIGHT then
    { p with y := SCREEN_HEIGHT - p.bottom_radius, vel_y := 0, is_jumping := false }
  else
    { p with y := y, vel_y := vel_y }

/-- State of class `Ball`. -/
structure Ball where
  x : ℝ
  y : ℝ
  vel_x : ℝ
  vel_y : ℝ

/-- Method `Ball.reset()`; `dir` is the value drawn by `random.choice([-1, 1])`. -/
def Ball.reset (dir : ℝ) : Ball :=
  { x := SCREEN_WIDTH / 2, y := SCREEN_HEIGHT / 4,
    vel_x := dir * BALL_SPEED, vel_y := 0 }

/-- The distance `((self.x - player.x)**2 + (self.y - player.y)**2)**0.5`
computed at the top of `Ball.check_player_collision`. -/
def Ball.playerDist (b : Ball) (p : Player) : ℝ :=
  Real.sqrt ((b.x - p.x) ^ 2 + (b.y - p.y) ^ 2)

/-- Method `Ball.check_player_collision(player)`.  `boost` is the draw of
`random.uniform(0, 2)` used on a dominantly horizontal contact; `jx`, `jy`
are the draws of `random.uniform(-1, 1)` added to both components.
`cosA`/`sinA` are `math.cos`/`math.sin` of `math.atan2 dy dx`, i.e. the
unit vector along `(dx, dy)` (equal to `(1, 0)` when both are zero). -/
def Ball.check_player_collision (b : Ball) (p : Player)
    (boost jx jy : ℝ) : Ball :=
  let bottom_circle_dist := b.playerDist p
  if bottom_circle_dist < BALL_RADIUS + p.bottom_radius then
    let dx := b.x - p.x
    let dy := b.y - p.y
    let cosA := if bottom_circle_dist = 0 then 1 else dx / bottom_circle_dist
    let sinA := if bottom_circle_dist = 0 then 0 else dy / bottom_circle_dist
    let x := p.x + cosA * (BALL_RADIUS + p.bottom_radius)
    let y := p.y + sinA * (BALL_RADIUS + p.bottom_radius)
    let vel_x :=
      if |cosA| > 0.5 then
        if cosA > 0 then |b.vel_x| + boost else -|b.vel_x| - boost
      else b.vel_x
    let vel_y :=
      if sinA < -0.5 then -|b.vel_y| - 5
      else if sinA > 0.5 then |b.vel_y|
      else b.vel_y
    let vel_x := vel_x + jx
    let vel_y := vel_y + jy
    let max_speed := BALL_SPEED * 1.5
    let vel_x :=
      if |vel_x| > max_speed then (if vel_x > 0 then max_speed else -max_speed)
      else vel_x
    let vel_y :=
      if |vel_y| > max_speed then (if vel_y > 0 then max_speed else -max_speed)
      else vel_y
    { x := x, y := y, vel_x := vel_x, vel_y := vel_y }
  else b

/-- Gravity integration and position advance at the top of `Ball.update`. -/
def Ball.integrate (b : Ball) : Ball :=
  let vel_y := b.vel_y + GRAVITY
  { b with vel_y := vel_y, x := b.x + b.vel_x, y := b.y + vel_y }

/-- The ceiling-bounce step of `Ball.update`. -/
def Ball.ceiling (b : Ball) : Ball :=
  if b.y - BALL_RADIUS < 0 then { b with y := BALL_RADIUS, vel_y := |b.vel_y| }
  else b

/-- The side-wall bounce step of `Ball.update`. -/
def Ball.walls (b : Ball) : Ball :=
  if b.x - BALL_RADIUS < 0 then
    { b with x := BALL_RADIUS, vel_x := |b.vel_x| }
  else if b.x + BALL_RADIUS > SCREEN_WIDTH then
    { b with x := SCREEN_WIDTH - BALL_RADIUS, vel_x := -|b.vel_x| }
  else b

/-- Local `net_left = SCREEN_WIDTH // 2 - NET_WIDTH // 2` (even integers, so
integer and real division coincide). -/
def net_left : ℝ := SCREEN_WIDTH / 2 - NET_WIDTH / 2

/-- Local `net_right = SCREEN_WIDTH // 2 + NET_WIDTH // 2` -/
def net_right : ℝ := SCREEN_WIDTH / 2 + NET_WIDTH / 2

/-- Local `net_top = SCREEN_HEIGHT - NET_HEIGHT` -/
def net_top : ℝ := SCREEN_HEIGHT - NET_HEIGHT

/-- The net-bounce step of `Ball.update`. -/
def Ball.net (b : Ball) : Ball :=
  if b.x + BALL_RADIUS > net_left ∧ b.x - BALL_RADIUS < net_right ∧
      b.y + BALL_RADIUS > net_top then
    if b.x < net_left then
      { b with x := net_left - BALL_RADIUS, vel_x := -|b.vel_x| }
    else if b.x > net_right then
      { b with x := net_right + BALL_RADIUS, vel_x := |b.vel_x| }
    else if b.y < net_top then
      { b with y := net_top - BALL_RADIUS, vel_y := -|b.vel_y| }
    else b
  else b

/-- The random draws consumed during one tick: `dir` by the `reset()`
inside `Ball.update` after a scoring event, `boost1`/`jx1`/`jy1` by the
collision check against `player1`, `boost2`/`jx2`/`jy2` by the one
against `player2`, and `dir2` by the `reset()` of the game-over branch
of the main loop. -/
structure Rand where
  dir : ℝ
  boost1 : ℝ
  jx1 : ℝ
  jy1 : ℝ
  boost2 : ℝ
  jx2 : ℝ
  jy2 : ℝ
  dir2 : ℝ

/-- The draws lie in the ranges `random.choice([-1, 1])` and
`random.uniform` produce. -/
def Rand.valid (r : Rand) : Prop :=
  (r.dir = -1 ∨ r.dir = 1) ∧ (r.dir2 = -1 ∨ r.dir2 = 1) ∧
  0 ≤ r.boost1 ∧ r.boost1 ≤ 2 ∧ |r.jx1| ≤ 1 ∧ |r.jy1| ≤ 1 ∧
  0 ≤ r.boost2 ∧ r.boost2 ≤ 2 ∧ |r.jx2| ≤ 1 ∧ |r.jy2| ≤ 1

/-- Method `Ball.update(player1, player2)`.  The players are returned because the
scoring branch mutates their `score`; on a scoring event the method
resets the ball and returns early, skipping the wall, net and player
collision checks (`show_goal_message` and `pygame.time.delay` are
display/timing only). -/
def Ball.update (b : Ball) (player1 player2 : Player) (r : Rand) :
    Ball × Player × Player :=
  let b := b.integrate
  let b := b.ceiling
  if b.y + BALL_RADIUS > SCREEN_HEIGHT then
    if b.x < SCREEN_WIDTH / 2 then
      (Ball.reset r.dir, player1, { player2 with score := player2.score + 1 })
    else
      (Ball.reset r.dir, { player1 with score := player1.score + 1 }, player2)
  else
    let b := b.walls
    let b := b.net
    let b := b.check_player_collision player1 r.boost1 r.jx1 r.jy1
    let b := b.check_player_collision player2 r.boost2 r.jx2 r.jy2
    (b, player1, player2)

/-- The keys read by `main` each tick: `Z`/`X`/`C` drive `player1`
(left/right/jump), the arrow keys drive `player2`. -/
structure Keys where
  z : Bool
  x : Bool
  c : Bool
  leftArrow : Bool
  rightArrow : Bool
  upArrow : Bool

/-- The mutable state of the `main` loop (at the top of an iteration;
`game_over` is always `False` there, since the game-over branch restores
it to `False` before the iteration ends). -/
structure GameState where
  player1 : Player
  player2 : Player
  ball : Ball

/-- The input handling of `main` for `player1` (keys Z, X, C). -/
def inputPlayer1 (p : Player) (k : Keys) : Player :=
  let p := if k.z then p.move (-1) else p
  let p := if k.x then p.move 1 else p
  if k.c then p.jump else p

/-- The input handling of `main` for `player2` (arrow keys). -/
def inputPlayer2 (p : Player) (k : Keys) : Player :=
  let p := if k.leftArrow then p.move (-1) else p
  let p := if k.rightArrow then p.move 1 else p
  if k.upArrow then p.jump else p

/-- One iteration of the `main` loop body (the `if not game_over:` block):
input handling, `player1.update()`, `player2.update()`,
`ball.update(player1, player2)`, then the game-over check, which shows
the winner, resets both scores to 0 and resets the ball.  The returned
flag records whether the game-over branch fired this tick
(`show_winner` blocks for the external restart signal and is display
only). -/
def tickStep (s : GameState) (k : Keys) (r : Rand) : GameState × Bool :=
  let p1 := (inputPlayer1 s.player1 k).update
  let p2 := (inputPlayer2 s.player2 k).update
  let u := s.ball.update p1 p2 r
  if u.2.1.score ≥ WINNING_SCORE ∨ u.2.2.score ≥ WINNING_SCORE then
    (⟨{ u.2.1 with score := 0 }, { u.2.2 with score := 0 }, Ball.reset r.dir2⟩, true)
  else
    (⟨u.2.1, u.2.2, u.1⟩, false)

/-- The state built at the top of `main`: players at
`(100, SCREEN_HEIGHT - PLAYER_BOTTOM_RADIUS)` and
`(SCREEN_WIDTH - 100, ...)`, and a freshly reset ball whose initial
direction `d` is the draw of `random.choice([-1, 1])` in
`Ball.__init__`. -/
def initState (d : ℝ) : GameState where
  player1 :=
    { x := 100, y := SCREEN_HEIGHT - PLAYER_BOTTOM_RADIUS, vel_y := 0,
      is_jumping := false, is_left_player := true, score := 0 }
  player2 :=
    { x := SCREEN_WIDTH - 100, y := SCREEN_HEIGHT - PLAYER_BOTTOM_RADIUS, vel_y := 0,
      is_jumping := false, is_left_player := false, score := 0 }
  ball := Ball.reset d

/-- The states reachable by the `main` loop: the initial state for either
initial ball direction, closed under one tick with any keys and any
valid random draws. -/
inductive Reach : GameState → Prop where
  | init (d : ℝ) (hd : d = -1 ∨ d = 1) : Reach (initState d)
  | step (s : GameState) (k : Keys) (r : Rand) (hr : r.valid)
      (hs : Reach s) : Reach (tickStep s k r).1

/-! Helper lemmas. -/

/-- A ball farther than the combined radius from the player is left
untouched by `check_player_collision`. -/
theorem check_player_collision_of_far (b : Ball) (p : Player) (boost jx jy : ℝ)
    (h : BALL_RADIUS + p.bottom_radius ≤ b.playerDist p) :
    b.check_player_collision p boost jx jy = b := by
  simp only [Ball.check_player_collision]
  rw [if_neg (not_lt.2 h)]

/-- The final velocity clamp of `check_player_collision` bounds the
absolute value by the cap. -/
theorem abs_cap_le (v m : ℝ) (hm : 0 ≤ m) :
    |if |v| > m then (if v > 0 then m else -m) else v| ≤ m := by
  split_ifs with h1 h2
  · rw [abs_of_nonneg hm]
  · rw [abs_neg, abs_of_nonneg hm]
  · exact le_of_not_lt h1

/-- Lemma: `Player.move` does not change `is_jumping`, `is_left_player`,
`score`, `y` or `vel_y`. -/
theorem move_only_x (p : Player) (d : ℝ) :
    (p.move d).y = p.y ∧ (p.move d).vel_y = p.vel_y ∧
    (p.move d).is_jumping = p.is_jumping ∧
    (p.move d).is_left_player = p.is_left_player ∧
    (p.move d).score = p.score := by
  simp only [Player.move]
  split_ifs <;> exact ⟨rfl, rfl, rfl, rfl, rfl⟩

/-- Lemma: `Player.jump` does not change the score. -/
theorem jump_score (p : Player) : p.jump.score = p.score := by
  simp only [Player.jump]
  split_ifs <;> rfl

/-- Lemma: `Player.update` does not change the score. -/
theorem update_score (p : Player) : p.update.score = p.score := by
  simp only [Player.update]
  split_ifs <;> rfl

/-- Input handling does not change `player1`'s score. -/
theorem inputPlayer1_score (p : Player) (k : Keys) :
    (inputPlayer1 p k).score = p.score := by
  simp only [inputPlayer1]
  split_ifs <;> simp [(move_only_x _ _).2.2.2.2, jump_score]

/-- Input handling does not change `player2`'s score. -/
theorem inputPlayer2_score (p : Player) (k : Keys) :
    (inputPlayer2 p k).score = p.score := by
  simp only [inputPlayer2]
  split_ifs <;> simp [(move_only_x _ _).2.2.2.2, jump_score]

/-- In one `Ball.update`, either `player2` scores one point, or `player1`
scores one point, or neither score changes. -/
theorem ball_update_score_cases (b : Ball) (p1 p2 : Player) (r : Rand) :
    ((b.update p1 p2 r).2.1.score = p1.score ∧
      (b.update p1 p2 r).2.2.score = p2.score + 1) ∨
    ((b.update p1 p2 r).2.1.score = p1.score + 1 ∧
      (b.update p1 p2 r).2.2.score = p2.score) ∨
    ((b.update p1 p2 r).2.1.score = p1.score ∧
      (b.update p1 p2 r).2.2.score = p2.score) := by
  simp only [Ball.update]
  split_ifs <;> simp

/-- A left player whose `x` equals the net-side clamp value keeps that
`x` under one `move 1`. -/
theorem move_one_at_clamp (q : Player) (hL : q.is_left_player = true)
    (hx : q.x = SCREEN_WIDTH / 2 - NET_WIDTH / 2 - PLAYER_BOTTOM_RADIUS) :
    (q.move 1).x = q.x := by
  simp only [Player.move, hL]
  rw [hx]
  norm_num [SCREEN_WIDTH, NET_WIDTH, PLAYER_BOTTOM_RADIUS, PLAYER_SPEED,
    Player.bottom_radius]

/-- A left player parked at the net-side clamp value stays there and
stays a left player under any number of repeated `move 1` calls. -/
theorem move_one_iterate_clamp (p : Player) (hL : p.is_left_player = true)
    (hx : p.x = SCREEN_WIDTH / 2 - NET_WIDTH / 2 - PLAYER_BOTTOM_RADIUS) :
    ∀ n : ℕ, ((fun q => Player.move q 1)^[n] p).x = p.x ∧
      ((fun q => Player.move q 1)^[n] p).is_left_player = true := by
  intro n
  induction n with
  | zero => exact ⟨rfl, hL⟩
  | succ n ih =>
      rw [Function.iterate_succ_apply']
      refine ⟨?_, ?_⟩
      · have h := move_one_at_clamp ((fun q => Player.move q 1)^[n] p) ih.2
          (ih.1.trans hx)
        simpa using h.trans ih.1
      · have h := (move_only_x ((fun q => Player.move q 1)^[n] p) 1).2.2.2.1
        simpa using h.trans ih.2

/-! Claim theorems. -/

/-- C7: calling `Player.jump` while airborne (`is_jumping = true`) changes
no field of the player; calling it while grounded (`is_jumping = false`)
sets `vel_y = JUMP_FORCE` and `is_jumping = true` and changes no other
field. -/
theorem C7_jump_spec (p : Player) :
    (p.is_jumping = true → p.jump = p) ∧
    (p.is_jumping = false →
      p.jump = { p with vel_y := JUMP_FORCE, is_jumping := true }) := by
  refine ⟨fun h => ?_, fun h => ?_⟩ <;> simp [Player.jump, h]

theorem C7_jump_spec_witness :
    ((⟨100, 570, 0, true, true, 0⟩ : Player).jump = ⟨100, 570, 0, true, true, 0⟩) ∧
    ((⟨100, 570, 0, false, true, 0⟩ : Player).jump =
      ⟨100, 570, JUMP_FORCE, true, true, 0⟩) :=
  ⟨(C7_jump_spec _).1 rfl, (C7_jump_spec _).2 rfl⟩

/-- C5: after `Player.move d` with `d ∈ {-1, 0, 1}`, a left player's `x`
lies in `[PLAYER_BOTTOM_RADIUS, SCREEN_WIDTH/2 - NET_WIDTH/2 -
PLAYER_BOTTOM_RADIUS]` and a right player's `x` lies in
`[SCREEN_WIDTH/2 + NET_WIDTH/2 + PLAYER_BOTTOM_RADIUS, SCREEN_WIDTH -
PLAYER_BOTTOM_RADIUS]`, whatever the starting `x`; and a left player
already at the net-side clamp value keeps that `x` under any number of
repeated `move 1` calls. -/
theorem C5_move_bounds (p : Player) (d : ℝ) (hd : d = -1 ∨ d = 0 ∨ d = 1) :
    (p.is_left_player = true →
      PLAYER_BOTTOM_RADIUS ≤ (p.move d).x ∧
      (p.move d).x ≤ SCREEN_WIDTH / 2 - NET_WIDTH / 2 - PLAYER_BOTTOM_RADIUS) ∧
    (p.is_left_player = false →
      SCREEN_WIDTH / 2 + NET_WIDTH / 2 + PLAYER_BOTTOM_RADIUS ≤ (p.move d).x ∧
      (p.move d).x ≤ SCREEN_WIDTH - PLAYER_BOTTOM_RADIUS) ∧
    (p.is_left_player = true →
      p.x = SCREEN_WIDTH / 2 - NET_WIDTH / 2 - PLAYER_BOTTOM_RADIUS →
      ∀ n : ℕ, ((fun q => Player.move q 1)^[n] p).x = p.x) := by
  refine ⟨fun hL => ?_, fun hR => ?_, fun hL hx n => (move_one_iterate_clamp p hL hx n).1⟩
  · simp only [Player.move, hL]
    split_ifs with h1 h2 <;>
      constructor <;>
      simp only [Player.bottom_radius, SCREEN_WIDTH, NET_WIDTH,
        PLAYER_BOTTOM_RADIUS] at * <;>
      norm_num at * <;>
      linarith
  · simp only [Player.move, hR]
    split_ifs with h1 h2 <;>
      constructor <;>
      simp only [Player.bottom_radius, SCREEN_WIDTH, NET_WIDTH,
        PLAYER_BOTTOM_RADIUS] at * <;>
      norm_num at * <;>
      linarith

theorem C5_move_bounds_witness :
    (PLAYER_BOTTOM_RADIUS ≤ ((⟨365, 570, 0, false, true, 0⟩ : Player).move 1).x ∧
      ((⟨365, 570, 0, false, true, 0⟩ : Player).move 1).x ≤
        SCREEN_WIDTH / 2 - NET_WIDTH / 2 - PLAYER_BOTTOM_RADIUS) ∧
    (SCREEN_WIDTH / 2 + NET_WIDTH / 2 + PLAYER_BOTTOM_RADIUS ≤
        ((⟨500, 570, 0, false, false, 0⟩ : Player).move 1).x ∧
      ((⟨500, 570, 0, false, false, 0⟩ : Player).move 1).x ≤
        SCREEN_WIDTH - PLAYER_BOTTOM_RADIUS) ∧
    ((fun q => Player.move q 1)^[3] (⟨365, 570, 0, false, true, 0⟩ : Player)).x = 365 := by
  refine ⟨(C5_move_bounds _ 1 (Or.inr (Or.inr rfl))).1 rfl,
    (C5_move_bounds _ 1 (Or.inr (Or.inr rfl))).2.1 rfl, ?_⟩
  have h := (C5_move_bounds (⟨365, 570, 0, false, true, 0⟩ : Player) 1
    (Or.inr (Or.inr rfl))).2.2 rfl
    (by norm_num [SCREEN_WIDTH, NET_WIDTH, PLAYER_BOTTOM_RADIUS]) 3
  simpa using h

/-- C6 (counterexample): a player that lands exactly on the floor line
(`y + bottom_radius = SCREEN_HEIGHT` after integration) is not clamped
by `Player.update`: the floor test of the code is strict (`>`), so the
post-state has nonzero `vel_y` and is still marked airborne, although
its bottom edge has reached the floor line. -/
theorem C6_floor_equality_counterexample :
    ((⟨100, 560, 9.5, true, true, 0⟩ : Player).update).y + PLAYER_BOTTOM_RADIUS ≥
      SCREEN_HEIGHT ∧
    ¬ (((⟨100, 560, 9.5, true, true, 0⟩ : Player).update).vel_y = 0 ∧
      ((⟨100, 560, 9.5, true, true, 0⟩ : Player).update).is_jumping = false) := by
  norm_num [Player.update, Player.bottom_radius, GRAVITY, SCREEN_HEIGHT,
    PLAYER_BOTTOM_RADIUS]

/-- C6 (amended): `Player.update` first adds `GRAVITY` to `vel_y`, then
adds the new `vel_y` to `y`; if the resulting bottom edge strictly
passes the floor line (`y + bottom_radius > SCREEN_HEIGHT`, strict) the
post-state is clamped to the floor with `vel_y = 0` and
`is_jumping = false`, otherwise the integrated state is kept
unchanged. -/
theorem C6_update_spec (p : Player) :
    (p.y + (p.vel_y + GRAVITY) + PLAYER_BOTTOM_RADIUS > SCREEN_HEIGHT →
      p.update = { p with
                    y := SCREEN_HEIGHT - PLAYER_BOTTOM_RADIUS,
                    vel_y := 0,
                    is_jumping := false }) ∧
    (¬ p.y + (p.vel_y + GRAVITY) + PLAYER_BOTTOM_RADIUS > SCREEN_HEIGHT →
      p.update = { p with
                    y := p.y + (p.vel_y + GRAVITY),
                    vel_y := p.vel_y + GRAVITY }) := by
  simp only [Player.update, Player.bottom_radius]
  constructor <;> intro h
  · rw [if_pos h]
  · rw [if_neg h]

theorem C6_update_spec_witness :
    ((⟨100, 560, 10.5, true, true, 0⟩ : Player).update =
      ⟨100, SCREEN_HEIGHT - PLAYER_BOTTOM_RADIUS, 0, false, true, 0⟩) ∧
    ((⟨100, 100, 0, false, true, 0⟩ : Player).update =
      ⟨100, 100 + (0 + GRAVITY), 0 + GRAVITY, false, true, 0⟩) :=
  ⟨(C6_update_spec _).1
      (by norm_num [GRAVITY, PLAYER_BOTTOM_RADIUS, SCREEN_HEIGHT]),
    (C6_update_spec _).2
      (by norm_num [GRAVITY, PLAYER_BOTTOM_RADIUS, SCREEN_HEIGHT])⟩

/-- C9: on a ball/player pair that is already non-overlapping (center
distance at least `BALL_RADIUS + bottom_radius`),
`Ball.check_player_collision` changes neither position nor velocity,
whatever the random draws, and running it twice is likewise a no-op. -/
theorem C9_collision_far_noop (b : Ball) (p : Player)
    (boost jx jy boost2 jx2 jy2 : ℝ)
    (h : BALL_RADIUS + p.bottom_radius ≤ b.playerDist p) :
    b.check_player_collision p boost jx jy = b ∧
    (b.check_player_collision p boost jx jy).check_player_collision p
      boost2 jx2 jy2 = b := by
  have h1 := check_player_collision_of_far b p boost jx jy h
  refine ⟨h1, ?_⟩
  rw [h1, check_player_collision_of_far b p boost2 jx2 jy2 h]

theorem C9_collision_far_noop_witness :
    (Ball.mk 100 100 0 0).check_player_collision ⟨100, 570, 0, false, true, 0⟩
      2 1 1 = Ball.mk 100 100 0 0 ∧
    ((Ball.mk 100 100 0 0).check_player_collision ⟨100, 570, 0, false, true, 0⟩
      2 1 1).check_player_collision ⟨100, 570, 0, false, true, 0⟩ 2 1 1 =
      Ball.mk 100 100 0 0 := by
  refine C9_collision_far_noop _ _ _ _ _ _ _ _ ?_
  have hd : Ball.playerDist ⟨100, 100, 0, 0⟩ ⟨100, 570, 0, false, true, 0⟩ =
      Real.sqrt (((100 : ℝ) - 100) ^ 2 + ((100 : ℝ) - 570) ^ 2) := rfl
  have h55 : BALL_RADIUS + Player.bottom_radius ⟨100, 570, 0, false, true, 0⟩ =
      (55 : ℝ) := by
    norm_num [BALL_RADIUS, Player.bottom_radius, PLAYER_BOTTOM_RADIUS]
  rw [hd, h55]
  exact Real.le_sqrt_of_sq_le (by norm_num)

/-- C10: a ball overlapping the net's bounding box whose center lies
horizontally within the net span and vertically at or below the net top
passes the net-collision step of `Ball.update` unchanged: the overlap is
left unresolved in that tick. -/
theorem C10_net_interior_noop (b : Ball)
    (h1 : b.x + BALL_RADIUS > net_left) (h2 : b.x - BALL_RADIUS < net_right)
    (h3 : b.y + BALL_RADIUS > net_top)
    (h4 : net_left ≤ b.x) (h5 : b.x ≤ net_right) (h6 : net_top ≤ b.y) :
    b.net = b := by
  simp only [Ball.net]
  rw [if_pos ⟨h1, h2, h3⟩, if_neg (not_lt.2 h4), if_neg (not_lt.2 h5),
    if_neg (not_lt.2 h6)]

theorem C10_net_interior_noop_witness :
    (Ball.mk 400 400 0 0).net = Ball.mk 400 400 0 0 :=
  C10_net_interior_noop _
    (by norm_num [net_left, SCREEN_WIDTH, NET_WIDTH, BALL_RADIUS])
    (by norm_num [net_right, SCREEN_WIDTH, NET_WIDTH, BALL_RADIUS])
    (by norm_num [net_top, SCREEN_HEIGHT, NET_HEIGHT, BALL_RADIUS])
    (by norm_num [net_left, SCREEN_WIDTH, NET_WIDTH])
    (by norm_num [net_right, SCREEN_WIDTH, NET_WIDTH])
    (by norm_num [net_top, SCREEN_HEIGHT, NET_HEIGHT])

/-- C8: whenever `Ball.check_player_collision` detects a collision
(center distance strictly less than `BALL_RADIUS + bottom_radius`), the
returned velocity satisfies `|vel_x| ≤ 1.5 * BALL_SPEED` and
`|vel_y| ≤ 1.5 * BALL_SPEED`, for every outcome of the random jitter. -/
theorem C8_speed_cap (b : Ball) (p : Player) (boost jx jy : ℝ)
    (h : b.playerDist p < BALL_RADIUS + p.bottom_radius) :
    |(b.check_player_collision p boost jx jy).vel_x| ≤ 1.5 * BALL_SPEED ∧
    |(b.check_player_collision p boost jx jy).vel_y| ≤ 1.5 * BALL_SPEED := by
  simp only [Ball.check_player_collision]
  rw [if_pos h]
  rw [show (1.5 : ℝ) * BALL_SPEED = BALL_SPEED * 1.5 from mul_comm _ _]
  exact ⟨abs_cap_le _ _ (by norm_num [BALL_SPEED]),
    abs_cap_le _ _ (by norm_num [BALL_SPEED])⟩

theorem C8_speed_cap_witness :
    |((Ball.mk 103 574 0 0).check_player_collision ⟨100, 570, 0, false, true, 0⟩
        2 1 1).vel_x| ≤ 1.5 * BALL_SPEED ∧
    |((Ball.mk 103 574 0 0).check_player_collision ⟨100, 570, 0, false, true, 0⟩
        2 1 1).vel_y| ≤ 1.5 * BALL_SPEED := by
  refine C8_speed_cap _ _ _ _ _ ?_
  have hd : Ball.playerDist ⟨103, 574, 0, 0⟩ ⟨100, 570, 0, false, true, 0⟩ =
      Real.sqrt (((103 : ℝ) - 100) ^ 2 + ((574 : ℝ) - 570) ^ 2) := rfl
  have h55 : BALL_RADIUS + Player.bottom_radius ⟨100, 570, 0, false, true, 0⟩ =
      (55 : ℝ) := by
    norm_num [BALL_RADIUS, Player.bottom_radius, PLAYER_BOTTOM_RADIUS]
  rw [hd, h55]
  exact (Real.sqrt_lt' (by norm_num)).2 (by norm_num)

/-- C2: in a tick where the ball's bottom passes the floor line after
integration (and the ceiling clamp, which cannot coincide with it), the
point goes to the right player (`player2`) when the ball's `x` is
strictly left of `SCREEN_WIDTH / 2`, to the left player (`player1`)
when strictly right of it, and — the tie-break — to `player1` (the left
player, the `else` branch of the code) when `x` equals the midpoint
exactly; the other player is unchanged. -/
theorem C2_scoring_assignment (b : Ball) (p1 p2 : Player) (r : Rand)
    (hfloor : (b.integrate.ceiling).y + BALL_RADIUS > SCREEN_HEIGHT) :
    ((b.integrate.ceiling).x < SCREEN_WIDTH / 2 →
      (b.update p1 p2 r).2.1 = p1 ∧
      (b.update p1 p2 r).2.2 = { p2 with score := p2.score + 1 }) ∧
    ((b.integrate.ceiling).x > SCREEN_WIDTH / 2 →
      (b.update p1 p2 r).2.1 = { p1 with score := p1.score + 1 } ∧
      (b.update p1 p2 r).2.2 = p2) ∧
    ((b.integrate.ceiling).x = SCREEN_WIDTH / 2 →
      (b.update p1 p2 r).2.1 = { p1 with score := p1.score + 1 } ∧
      (b.update p1 p2 r).2.2 = p2) := by
  simp only [Ball.update]
  rw [if_pos hfloor]
  refine ⟨fun hx => ?_, fun hx => ?_, fun hx => ?_⟩
  · rw [if_pos hx]; exact ⟨rfl, rfl⟩
  · rw [if_neg (not_lt.2 (le_of_lt hx))]; exact ⟨rfl, rfl⟩
  · rw [if_neg (not_lt.2 (le_of_eq hx.symm))]; exact ⟨rfl, rfl⟩

theorem C2_scoring_assignment_witness :
    ((Ball.mk 300 580 0 10).update ⟨100, 570, 0, false, true, 3⟩
        ⟨700, 570, 0, false, false, 7⟩ ⟨1, 0, 0, 0, 0, 0, 0, 1⟩).2.1 =
      ⟨100, 570, 0, false, true, 3⟩ ∧
    ((Ball.mk 300 580 0 10).update ⟨100, 570, 0, false, true, 3⟩
        ⟨700, 570, 0, false, false, 7⟩ ⟨1, 0, 0, 0, 0, 0, 0, 1⟩).2.2 =
      ⟨700, 570, 0, false, false, 8⟩ := by
  have h := (C2_scoring_assignment (Ball.mk 300 580 0 10)
      ⟨100, 570, 0, false, true, 3⟩ ⟨700, 570, 0, false, false, 7⟩
      ⟨1, 0, 0, 0, 0, 0, 0, 1⟩
      (by norm_num [Ball.integrate, Ball.ceiling, GRAVITY, BALL_RADIUS,
        SCREEN_HEIGHT])).1
    (by norm_num [Ball.integrate, Ball.ceiling, GRAVITY, BALL_RADIUS,
      SCREEN_WIDTH])
  simpa using h

/-- C4: in a tick with a floor-contact scoring event, `Ball.update`
returns early, skipping the wall, net and player collision checks, and
the resulting ball equals the reset state: position exactly
`(SCREEN_WIDTH / 2, SCREEN_HEIGHT / 4)`, vertical velocity exactly `0`,
and horizontal velocity of magnitude exactly `BALL_SPEED` with the sign
drawn by the random source. -/
theorem C4_scoring_resets_ball (b : Ball) (p1 p2 : Player) (r : Rand)
    (hfloor : (b.integrate.ceiling).y + BALL_RADIUS > SCREEN_HEIGHT)
    (hd : r.dir = -1 ∨ r.dir = 1) :
    (b.update p1 p2 r).1 = Ball.reset r.dir ∧
    (b.update p1 p2 r).1.x = SCREEN_WIDTH / 2 ∧
    (b.update p1 p2 r).1.y = SCREEN_HEIGHT / 4 ∧
    (b.update p1 p2 r).1.vel_y = 0 ∧
    |(b.update p1 p2 r).1.vel_x| = BALL_SPEED := by
  have h1 : (b.update p1 p2 r).1 = Ball.reset r.dir := by
    simp only [Ball.update]
    rw [if_pos hfloor]
    split_ifs <;> rfl
  refine ⟨h1, ?_, ?_, ?_, ?_⟩ <;> rw [h1]
  · rfl
  · rfl
  · rfl
  · show |r.dir * BALL_SPEED| = BALL_SPEED
    rcases hd with h | h <;> rw [h] <;> norm_num [BALL_SPEED]

theorem C4_scoring_resets_ball_witness :
    ((Ball.mk 300 580 0 10).update ⟨100, 570, 0, false, true, 3⟩
        ⟨700, 570, 0, false, false, 7⟩ ⟨-1, 0, 0, 0, 0, 0, 0, 1⟩).1 =
      Ball.reset (-1) ∧
    ((Ball.mk 300 580 0 10).update ⟨100, 570, 0, false, true, 3⟩
        ⟨700, 570, 0, false, false, 7⟩ ⟨-1, 0, 0, 0, 0, 0, 0, 1⟩).1.x =
      SCREEN_WIDTH / 2 ∧
    ((Ball.mk 300 580 0 10).update ⟨100, 570, 0, false, true, 3⟩
        ⟨700, 570, 0, false, false, 7⟩ ⟨-1, 0, 0, 0, 0, 0, 0, 1⟩).1.y =
      SCREEN_HEIGHT / 4 ∧
    ((Ball.mk 300 580 0 10).update ⟨100, 570, 0, false, true, 3⟩
        ⟨700, 570, 0, false, false, 7⟩ ⟨-1, 0, 0, 0, 0, 0, 0, 1⟩).1.vel_y = 0 ∧
    |((Ball.mk 300 580 0 10).update ⟨100, 570, 0, false, true, 3⟩
        ⟨700, 570, 0, false, false, 7⟩ ⟨-1, 0, 0, 0, 0, 0, 0, 1⟩).1.vel_x| =
      BALL_SPEED :=
  C4_scoring_resets_ball _ _ _ _
    (by norm_num [Ball.integrate, Ball.ceiling, GRAVITY, BALL_RADIUS,
      SCREEN_HEIGHT])
    (Or.inl rfl)

/-- Every state reachable by the main loop has both scores strictly
below `WINNING_SCORE` at the top of the tick: reaching the threshold
during a tick fires the game-over branch of that same tick, which
resets both scores to 0. -/
theorem reach_scores_lt (s : GameState) (hs : Reach s) :
    s.player1.score < WINNING_SCORE ∧ s.player2.score < WINNING_SCORE := by
  induction hs with
  | init d hd =>
      constructor <;> norm_num [initState, WINNING_SCORE]
  | step s k r hr hs ih =>
      simp only [tickStep]
      split_ifs with h
      · constructor <;> norm_num [WINNING_SCORE]
      · push_neg at h
        exact ⟨h.1, h.2⟩

/-- C3: from any reachable state, the game-over branch of the tick fires
exactly when a score reaches `WINNING_SCORE` after `Ball.update`; at the
top of every reachable tick both scores are strictly below
`WINNING_SCORE`, within the tick they never exceed `WINNING_SCORE`
itself (one increment past the last below-threshold value), and when
the branch fires both scores reset to 0 and the ball is reset. -/
theorem C3_match_over (s : GameState) (k : Keys) (r : Rand) (hs : Reach s) :
    s.player1.score < WINNING_SCORE ∧ s.player2.score < WINNING_SCORE ∧
    ((tickStep s k r).2 = true ↔
      (s.ball.update (inputPlayer1 s.player1 k).update
        (inputPlayer2 s.player2 k).update r).2.1.score ≥ WINNING_SCORE ∨
      (s.ball.update (inputPlayer1 s.player1 k).update
        (inputPlayer2 s.player2 k).update r).2.2.score ≥ WINNING_SCORE) ∧
    (s.ball.update (inputPlayer1 s.player1 k).update
      (inputPlayer2 s.player2 k).update r).2.1.score ≤ WINNING_SCORE ∧
    (s.ball.update (inputPlayer1 s.player1 k).update
      (inputPlayer2 s.player2 k).update r).2.2.score ≤ WINNING_SCORE ∧
    ((tickStep s k r).2 = true →
      (tickStep s k r).1.player1.score = 0 ∧
      (tickStep s k r).1.player2.score = 0 ∧
      (tickStep s k r).1.ball = Ball.reset r.dir2) := by
  obtain ⟨i1, i2⟩ := reach_scores_lt s hs
  have hsc1 : ((inputPlayer1 s.player1 k).update).score = s.player1.score :=
    (update_score _).trans (inputPlayer1_score _ _)
  have hsc2 : ((inputPlayer2 s.player2 k).update).score = s.player2.score :=
    (update_score _).trans (inputPlayer2_score _ _)
  have hcases := ball_update_score_cases s.ball
    (inputPlayer1 s.player1 k).update (inputPlayer2 s.player2 k).update r
  have ht1 : (s.ball.update (inputPlayer1 s.player1 k).update
      (inputPlayer2 s.player2 k).update r).2.1.score ≤ WINNING_SCORE := by
    rcases hcases with ⟨ha, _⟩ | ⟨ha, _⟩ | ⟨ha, _⟩ <;> rw [ha, hsc1] <;> omega
  have ht2 : (s.ball.update (inputPlayer1 s.player1 k).update
      (inputPlayer2 s.player2 k).update r).2.2.score ≤ WINNING_SCORE := by
    rcases hcases with ⟨_, hb⟩ | ⟨_, hb⟩ | ⟨_, hb⟩ <;> rw [hb, hsc2] <;> omega
  refine ⟨i1, i2, ?_, ht1, ht2, ?_⟩
  · simp only [tickStep]
    split_ifs with h
    · exact iff_of_true rfl h
    · exact iff_of_false (by simp) h
  · intro hfired
    simp only [tickStep] at hfired ⊢
    split_ifs at hfired ⊢ with h
    exact ⟨rfl, rfl, rfl⟩

theorem C3_match_over_witness :
    (initState 1).player1.score < WINNING_SCORE :=
  (C3_match_over (initState 1) ⟨false, false, false, false, false, false⟩
    ⟨1, 0, 0, 0, 0, 0, 0, 1⟩ (Reach.init 1 (Or.inr rfl))).1

end Volley
